import Mathlib

/-!
Shallow embedding of the `escpos-embedded` crate (`src/lib.rs`): an ESC/POS
printer driver generic over a byte transport.  Bytes are modelled as natural
numbers (`u8` values are below 256, `u16` below 65536); machine-integer
wrap-around is made explicit with `% 2 ^ w` exactly where the Rust arithmetic
can overflow.  A fallible transport write is `σ → List Nat → Except ε σ`:
explicit state passing over an abstract transport state `σ` with an abstract,
transport-defined error type `ε`.
-/

namespace Escpos

/--
The transport a `Printer` is instantiated with.  The façade's `impl` block in
the source is `impl<T> Printer<T> where T: Write + Read<Error = <T as Write>::Error>`,
so the transport type carries both capabilities with one shared error type:
`write` takes the byte slice to send, `read` takes a buffer length and returns
the number of bytes read.
-/
structure Transport (σ ε : Type) where
  write : σ → List Nat → Except ε σ
  read : σ → Nat → Except ε (Nat × σ)

/-- Equality of `Except` results is decidable when it is for both components;
lets concrete runs be settled by `decide`. -/
def exceptDecEq {α β : Type} [DecidableEq α] [DecidableEq β] :
    (a b : Except α β) → Decidable (a = b)
  | Except.error x, Except.error y =>
      if h : x = y then Decidable.isTrue (h ▸ rfl)
      else Decidable.isFalse (fun hc => h (Except.error.inj hc))
  | Except.error _, Except.ok _ => Decidable.isFalse (fun hc => Except.noConfusion hc)
  | Except.ok _, Except.error _ => Decidable.isFalse (fun hc => Except.noConfusion hc)
  | Except.ok x, Except.ok y =>
      if h : x = y then Decidable.isTrue (h ▸ rfl)
      else Decidable.isFalse (fun hc => h (Except.ok.inj hc))

instance {α β : Type} [DecidableEq α] [DecidableEq β] : DecidableEq (Except α β) :=
  exceptDecEq

/-- Model of Rust `&str`: a sequence of UTF-8 bytes. -/
structure Str where
  bytes : List Nat

/-- `str::as_bytes` exposes the UTF-8 bytes of the string. -/
def Str.as_bytes (s : Str) : List Nat := s.bytes

/-- `Image`: width and height in pixels (`u16` fields), packed 1-bit-per-pixel
row-major bitmap data. -/
structure Image where
  width : Nat
  height : Nat
  data : List Nat

/-- Paper cutting modes. -/
inductive CutMode
  | Full
  | Partial
deriving DecidableEq

def CutMode.as_byte : CutMode → Nat
  | CutMode.Full => 0x00
  | CutMode.Partial => 0x01

/-- Underline styles. -/
inductive UnderlineMode
  | None
  | Single
  | Double
deriving DecidableEq

def UnderlineMode.as_byte : UnderlineMode → Nat
  | UnderlineMode.None => 0x00
  | UnderlineMode.Single => 0x01
  | UnderlineMode.Double => 0x02

/-- Horizontal alignment modes. -/
inductive Align
  | Left
  | Center
  | Right
deriving DecidableEq

def Align.as_byte : Align → Nat
  | Align.Left => 0x00
  | Align.Center => 0x01
  | Align.Right => 0x02

/-- Font type selection. -/
inductive Font
  | FontA
  | FontB
deriving DecidableEq

def Font.as_byte : Font → Nat
  | Font.FontA => 0x00
  | Font.FontB => 0x01

/-- Text justification. -/
inductive Justification
  | Left
  | Center
  | Right
deriving DecidableEq

def Justification.as_byte : Justification → Nat
  | Justification.Left => 0x00
  | Justification.Center => 0x01
  | Justification.Right => 0x02

/-- Print density levels. -/
inductive Density
  | Level0
  | Level1
  | Level2
  | Level3
  | Level4
  | Level5
  | Level6
  | Level7
  | Level8
deriving DecidableEq

def Density.as_byte : Density → Nat
  | Density.Level0 => 0x00
  | Density.Level1 => 0x01
  | Density.Level2 => 0x02
  | Density.Level3 => 0x03
  | Density.Level4 => 0x04
  | Density.Level5 => 0x05
  | Density.Level6 => 0x06
  | Density.Level7 => 0x07
  | Density.Level8 => 0x08

/-- Printer speed options. -/
inductive PrintSpeed
  | Speed1
  | Speed2
  | Speed3
  | Speed4
deriving DecidableEq

def PrintSpeed.as_byte : PrintSpeed → Nat
  | PrintSpeed.Speed1 => 0x00
  | PrintSpeed.Speed2 => 0x01
  | PrintSpeed.Speed3 => 0x02
  | PrintSpeed.Speed4 => 0x03

namespace Printer

variable {σ ε : Type}

/-- `Printer::raw`: send raw bytes directly to the printer. -/
def raw (t : Transport σ ε) (s : σ) (data : List Nat) : Except ε σ :=
  t.write s data

/-- `Printer::write`: write raw text to the printer (`text.as_bytes()`). -/
def write (t : Transport σ ε) (s : σ) (text : Str) : Except ε σ :=
  t.write s (Str.as_bytes text)

/-- `Printer::write_line`: write text, then (on success — the `?` operator is
the `Result` monad's bind) a second transport write of the single byte
`b"\n"` = `0x0A`. -/
def write_line (t : Transport σ ε) (s : σ) (text : Str) : Except ε σ :=
  (write t s text).bind (fun s2 => t.write s2 [0x0A])

/-- `Printer::feed`: feed the specified number of lines (`lines : u8`). -/
def feed (t : Transport σ ε) (s : σ) (lines : Nat) : Except ε σ :=
  raw t s [0x1B, 0x64, lines]

/-- `Printer::cut`: cut the paper using the given mode. -/
def cut (t : Transport σ ε) (s : σ) (mode : CutMode) : Except ε σ :=
  raw t s [0x1D, 0x56, mode.as_byte]

/-- `Printer::set_bold`: enable or disable bold mode. -/
def set_bold (t : Transport σ ε) (s : σ) (on_ : Bool) : Except ε σ :=
  let flag := if on_ then 0x01 else 0x00
  raw t s [0x1B, 0x45, flag]

/-- `Printer::set_underline`: set underline mode. -/
def set_underline (t : Transport σ ε) (s : σ) (mode : UnderlineMode) : Except ε σ :=
  raw t s [0x1B, 0x2D, mode.as_byte]

/-- `Printer::set_align`: set text alignment. -/
def set_align (t : Transport σ ε) (s : σ) (align : Align) : Except ε σ :=
  raw t s [0x1B, 0x61, align.as_byte]

/-- `Printer::set_font`: select printer font. -/
def set_font (t : Transport σ ε) (s : σ) (font : Font) : Except ε σ :=
  raw t s [0x1B, 0x4D, font.as_byte]

/-- `Printer::set_size`: set character size using width and height multipliers
(`u8` arguments, each clamped with `core::cmp::min(_, 7)`; the shift and or
stay below 256, so the `u8` arithmetic cannot wrap). -/
def set_size (t : Transport σ ε) (s : σ) (width height : Nat) : Except ε σ :=
  let width := min width 7
  let height := min height 7
  let param := (width <<< 4) ||| height
  raw t s [0x1D, 0x21, param]

/-- `Printer::set_invert`: enable or disable inverted printing. -/
def set_invert (t : Transport σ ε) (s : σ) (on_ : Bool) : Except ε σ :=
  let flag := if on_ then 0x01 else 0x00
  raw t s [0x1D, 0x42, flag]

/-- `Printer::set_justification`: set text justification. -/
def set_justification (t : Transport σ ε) (s : σ) (mode : Justification) : Except ε σ :=
  raw t s [0x1B, 0x61, mode.as_byte]

/-- `Printer::set_density`: set print density level. -/
def set_density (t : Transport σ ε) (s : σ) (level : Density) : Except ε σ :=
  raw t s [0x1D, 0x7C, level.as_byte]

/-- `Printer::set_print_speed`: set print speed. -/
def set_print_speed (t : Transport σ ε) (s : σ) (speed : PrintSpeed) : Except ε σ :=
  raw t s [0x1F, 0x50, speed.as_byte]

/-- `Printer::set_baud_rate`: vendor frame `ESC # # 'S' 'B' 'D' 'R'` followed
by `baud.to_le_bytes()` (`baud : u32`, the four little-endian bytes written
with explicit truncation). -/
def set_baud_rate (t : Transport σ ε) (s : σ) (baud : Nat) : Except ε σ :=
  let b0 := baud % 256
  let b1 := baud / 256 % 256
  let b2 := baud / 256 / 256 % 256
  let b3 := baud / 256 / 256 / 256 % 256
  raw t s [0x1B, 0x23, 0x23, 0x53, 0x42, 0x44, 0x52, b0, b1, b2, b3]

/-- `Printer::set_max_speed`: vendor frame `ESC # # 'S' 'T' 'S' 'P'` followed
by the raw speed byte (`speed : u8`). -/
def set_max_speed (t : Transport σ ε) (s : σ) (speed : Nat) : Except ε σ :=
  raw t s [0x1B, 0x23, 0x23, 0x53, 0x54, 0x53, 0x50, speed]

/-- `Printer::set_black_mark`: enable or disable black mark detection. -/
def set_black_mark (t : Transport σ ε) (s : σ) (on_ : Bool) : Except ε σ :=
  let flag := if on_ then 0x44 else 0x66
  raw t s [0x1F, 0x1B, 0x1F, 0x80, 0x04, 0x05, 0x06, flag]

/-- `Printer::print_image`: raster bit image, mode 0.  The source computes
`let width_bytes = ((image.width + 7) / 8) as u16;` — the addition is `u16`
arithmetic and wraps at `2 ^ 16` (made explicit with `% 65536`); the header is
sent with `self.raw(...)?` and the packed data with a second transport write. -/
def print_image (t : Transport σ ε) (s : σ) (img : Image) : Except ε σ :=
  let width_bytes := (img.width + 7) % 65536 / 8
  let x_l := width_bytes % 256
  let x_h := width_bytes / 256 % 256
  let y_l := img.height % 256
  let y_h := img.height / 256 % 256
  (raw t s [0x1D, 0x76, 0x30, 0x00, x_l, x_h, y_l, y_h]).bind
    (fun s2 => t.write s2 img.data)

end Printer

/-- The 8-byte header `print_image` sends, factored out of
`Printer.print_image` for stating properties (definitionally equal to the
header list computed there). -/
def imageHeaderBytes (img : Image) : List Nat :=
  let width_bytes := (img.width + 7) % 65536 / 8
  [0x1D, 0x76, 0x30, 0x00, width_bytes % 256, width_bytes / 256 % 256,
    img.height % 256, img.height / 256 % 256]

/-- An always-succeeding transport whose state logs every byte slice handed to
`write`, in call order; used to observe exactly which writes an operation
performs. -/
def logTransport : Transport (List (List Nat)) Unit where
  write := fun s data => Except.ok (s ++ [data])
  read := fun s _ => Except.ok (0, s)

/-- A transport whose `write` always fails; the error value carries the log of
every `write` call attempted up to and including the failing one, so a result's
error value lists exactly the writes that were attempted. -/
def failTransport : Transport (List (List Nat)) (List (List Nat)) where
  write := fun s data => Except.error (s ++ [data])
  read := fun s _ => Except.ok (0, s)

end Escpos

namespace Escpos

/-- `Printer.print_image` is exactly: one transport write of the 8-byte header,
then, on success, one transport write of the packed data. -/
theorem print_image_eq {σ ε : Type} (t : Transport σ ε) (s : σ) (img : Image) :
    Printer.print_image t s img =
      (t.write s (imageHeaderBytes img)).bind (fun s2 => t.write s2 img.data) :=
  rfl

/-- C1 (amended): for every raster image whose `u16` width satisfies
`width + 7 < 65536` (and height below 65536), `print_image` sends a header of
exactly the 8 bytes `1D 76 30 00 xL xH yL yH`, where the width-in-bytes field
`⌈width/8⌉ = (width + 7) / 8` is split little-endian into `xL`/`xH` and the
pixel height is split little-endian into `yL`/`yH`, followed by the packed
pixel data as a second write.  (For widths above 65528 the `u16` addition
`width + 7` wraps, see the counterexample.) -/
theorem c1_raster_header {σ ε : Type} (t : Transport σ ε) (s : σ) (img : Image)
    (hw : img.width + 7 < 65536) (hh : img.height < 65536) :
    Printer.print_image t s img =
      (t.write s [0x1D, 0x76, 0x30, 0x00, (img.width + 7) / 8 % 256,
          (img.width + 7) / 8 / 256, img.height % 256, img.height / 256]).bind
        (fun s2 => t.write s2 img.data) := by
  rw [print_image_eq]
  have h : imageHeaderBytes img =
      [0x1D, 0x76, 0x30, 0x00, (img.width + 7) / 8 % 256,
        (img.width + 7) / 8 / 256, img.height % 256, img.height / 256] := by
    have h1 : (img.width + 7) % 65536 = img.width + 7 := Nat.mod_eq_of_lt hw
    have h2 : (img.width + 7) / 8 / 256 % 256 = (img.width + 7) / 8 / 256 := by
      omega
    have h3 : img.height / 256 % 256 = img.height / 256 := by
      omega
    simp only [imageHeaderBytes, h1, h2, h3]
  rw [h]

/-- Witness for C1 at the spec's example: width 8, height 1, data `[0xAA]`
yields the header `1D 76 30 00 01 00 01 00` followed by `AA`. -/
theorem c1_raster_header_witness :
    Printer.print_image logTransport [] ⟨8, 1, [0xAA]⟩ =
      Except.ok [[0x1D, 0x76, 0x30, 0x00, 0x01, 0x00, 0x01, 0x00], [0xAA]] := by
  have h := c1_raster_header logTransport [] ⟨8, 1, [0xAA]⟩ (by decide) (by decide)
  rw [h]
  rfl

/-- C1 counterexample: at width 65535 the `u16` addition `width + 7` wraps to
6, so the sent header carries width-in-bytes 0 — not the little-endian split of
`⌈65535 / 8⌉ = 8192` (low byte 0, high byte 32) the claim requires. -/
theorem c1_counterexample :
    Printer.print_image logTransport [] ⟨65535, 1, []⟩ =
      Except.ok [[0x1D, 0x76, 0x30, 0x00, 0x00, 0x00, 0x01, 0x00], []]
    ∧ (65535 + 7) / 8 = 8192
    ∧ Printer.print_image logTransport [] ⟨65535, 1, []⟩ ≠
      Except.ok [[0x1D, 0x76, 0x30, 0x00, 8192 % 256, 8192 / 256, 0x01, 0x00], []] := by
  refine ⟨rfl, by decide, by decide⟩

/-- C2: in each multi-write operation (`print_image`: header then pixel data;
`write_line`: text then newline), when the earlier transport write fails the
transport's error is returned to the caller unchanged; in the state-passing
semantics the error result means the remaining write is never invoked (the
witness exhibits the attempted-call trace). -/
theorem c2_short_circuit {σ ε : Type} (t : Transport σ ε) (s : σ) (img : Image)
    (text : Str) (e1 e2 : ε)
    (himg : t.write s (imageHeaderBytes img) = Except.error e1)
    (htxt : t.write s (Str.as_bytes text) = Except.error e2) :
    Printer.print_image t s img = Except.error e1 ∧
      Printer.write_line t s text = Except.error e2 := by
  constructor
  · rw [print_image_eq, himg]
    rfl
  · unfold Printer.write_line Printer.write
    rw [htxt]
    rfl

/-- Witness for C2 on the always-failing transport whose error carries the
trace of attempted writes: `print_image` fails with only the header write
attempted (the pixel-data write absent from the trace), `write_line` with only
the text write attempted. -/
theorem c2_short_circuit_witness :
    Printer.print_image failTransport [] ⟨8, 1, [0xAA]⟩ =
      Except.error [[0x1D, 0x76, 0x30, 0x00, 0x01, 0x00, 0x01, 0x00]] ∧
    Printer.write_line failTransport [] ⟨[0x48, 0x69]⟩ =
      Except.error [[0x48, 0x69]] :=
  c2_short_circuit failTransport [] ⟨8, 1, [0xAA]⟩ ⟨[0x48, 0x69]⟩
    [[0x1D, 0x76, 0x30, 0x00, 0x01, 0x00, 0x01, 0x00]] [[0x48, 0x69]] rfl rfl

end Escpos

namespace Escpos

/-- C3 (amended): every façade operation performs exactly one transport write
per call, with two exceptions — `print_image` (header then pixel data) and
`write_line` (text then newline) perform exactly two writes; no operation
performs more.  Each conjunct exhibits the operation as exactly the stated
transport write(s), over an arbitrary transport. -/
theorem c3_write_counts {σ ε : Type} (t : Transport σ ε) (s : σ) (text : Str)
    (n : Nat) (cm : CutMode) (b iv bm : Bool) (um : UnderlineMode) (al : Align)
    (fo : Font) (w h : Nat) (j : Justification) (d : Density) (ps : PrintSpeed)
    (baud ms : Nat) (data : List Nat) (img : Image) :
    Printer.write t s text = t.write s (Str.as_bytes text)
    ∧ Printer.feed t s n = t.write s [0x1B, 0x64, n]
    ∧ Printer.cut t s cm = t.write s [0x1D, 0x56, cm.as_byte]
    ∧ Printer.set_bold t s b = t.write s [0x1B, 0x45, if b then 0x01 else 0x00]
    ∧ Printer.set_underline t s um = t.write s [0x1B, 0x2D, um.as_byte]
    ∧ Printer.set_align t s al = t.write s [0x1B, 0x61, al.as_byte]
    ∧ Printer.set_font t s fo = t.write s [0x1B, 0x4D, fo.as_byte]
    ∧ Printer.set_size t s w h = t.write s [0x1D, 0x21, (min w 7 <<< 4) ||| min h 7]
    ∧ Printer.set_invert t s iv = t.write s [0x1D, 0x42, if iv then 0x01 else 0x00]
    ∧ Printer.set_justification t s j = t.write s [0x1B, 0x61, j.as_byte]
    ∧ Printer.set_density t s d = t.write s [0x1D, 0x7C, d.as_byte]
    ∧ Printer.set_print_speed t s ps = t.write s [0x1F, 0x50, ps.as_byte]
    ∧ Printer.set_baud_rate t s baud = t.write s [0x1B, 0x23, 0x23, 0x53, 0x42,
        0x44, 0x52, baud % 256, baud / 256 % 256, baud / 256 / 256 % 256,
        baud / 256 / 256 / 256 % 256]
    ∧ Printer.set_max_speed t s ms = t.write s [0x1B, 0x23, 0x23, 0x53, 0x54,
        0x53, 0x50, ms]
    ∧ Printer.set_black_mark t s bm = t.write s [0x1F, 0x1B, 0x1F, 0x80, 0x04,
        0x05, 0x06, if bm then 0x44 else 0x66]
    ∧ Printer.raw t s data = t.write s data
    ∧ Printer.write_line t s text =
        (t.write s (Str.as_bytes text)).bind (fun s2 => t.write s2 [0x0A])
    ∧ Printer.print_image t s img =
        (t.write s (imageHeaderBytes img)).bind (fun s2 => t.write s2 img.data) :=
  ⟨rfl, rfl, rfl, rfl, rfl, rfl, rfl, rfl, rfl, rfl, rfl, rfl, rfl, rfl, rfl,
    rfl, rfl, rfl⟩

/-- C3 counterexample: `write_line` is not image printing, yet one call hands
the logging transport two separate byte slices — the text and the newline — so
image printing is not the single multi-write exception. -/
theorem c3_counterexample :
    Printer.write_line logTransport [] ⟨[0x48, 0x69]⟩ =
      Except.ok [[0x48, 0x69], [0x0A]]
    ∧ ([[0x48, 0x69], [0x0A]] : List (List Nat)).length = 2 :=
  ⟨rfl, rfl⟩

/-- C4: no façade operation ever invokes the transport's read capability: every
operation's result is unchanged when the transport's `read` method is replaced
by an arbitrary one (`⟨t.write, r⟩` is `t` with `read := r`).  The source
nonetheless bounds the whole `impl` block, hence every operation, by
`T: Write + Read<Error = <T as Write>::Error>` — see the claim's record. -/
theorem c4_read_never_used {σ ε : Type} (t : Transport σ ε)
    (r : σ → Nat → Except ε (Nat × σ)) (s : σ) (text : Str)
    (n : Nat) (cm : CutMode) (b iv bm : Bool) (um : UnderlineMode) (al : Align)
    (fo : Font) (w h : Nat) (j : Justification) (d : Density) (ps : PrintSpeed)
    (baud ms : Nat) (data : List Nat) (img : Image) :
    Printer.write ⟨t.write, r⟩ s text = Printer.write t s text
    ∧ Printer.write_line ⟨t.write, r⟩ s text = Printer.write_line t s text
    ∧ Printer.feed ⟨t.write, r⟩ s n = Printer.feed t s n
    ∧ Printer.cut ⟨t.write, r⟩ s cm = Printer.cut t s cm
    ∧ Printer.set_bold ⟨t.write, r⟩ s b = Printer.set_bold t s b
    ∧ Printer.set_underline ⟨t.write, r⟩ s um = Printer.set_underline t s um
    ∧ Printer.set_align ⟨t.write, r⟩ s al = Printer.set_align t s al
    ∧ Printer.set_font ⟨t.write, r⟩ s fo = Printer.set_font t s fo
    ∧ Printer.set_size ⟨t.write, r⟩ s w h = Printer.set_size t s w h
    ∧ Printer.set_invert ⟨t.write, r⟩ s iv = Printer.set_invert t s iv
    ∧ Printer.set_justification ⟨t.write, r⟩ s j = Printer.set_justification t s j
    ∧ Printer.set_density ⟨t.write, r⟩ s d = Printer.set_density t s d
    ∧ Printer.set_print_speed ⟨t.write, r⟩ s ps = Printer.set_print_speed t s ps
    ∧ Printer.set_baud_rate ⟨t.write, r⟩ s baud = Printer.set_baud_rate t s baud
    ∧ Printer.set_max_speed ⟨t.write, r⟩ s ms = Printer.set_max_speed t s ms
    ∧ Printer.set_black_mark ⟨t.write, r⟩ s bm = Printer.set_black_mark t s bm
    ∧ Printer.print_image ⟨t.write, r⟩ s img = Printer.print_image t s img
    ∧ Printer.raw ⟨t.write, r⟩ s data = Printer.raw t s data :=
  ⟨rfl, rfl, rfl, rfl, rfl, rfl, rfl, rfl, rfl, rfl, rfl, rfl, rfl, rfl, rfl,
    rfl, rfl, rfl⟩

end Escpos

namespace Escpos

/-- C5: `write_line s` is `write s` followed by one single-byte write of
`0x0A`; on the logging transport the delivered slices, appended after any
prior log, are the UTF-8 bytes of `s` and then `[0x0A]`, whose concatenation
is the bytes of `s` followed by `0x0A`. -/
theorem c5_write_line {σ ε : Type} (t : Transport σ ε) (s : σ) (text : Str)
    (L : List (List Nat)) :
    Printer.write_line t s text =
      (Printer.write t s text).bind (fun s2 => t.write s2 [0x0A])
    ∧ Printer.write_line logTransport L text =
        Except.ok (L ++ [Str.as_bytes text, [0x0A]])
    ∧ (L ++ [Str.as_bytes text, [0x0A]]).flatten =
        L.flatten ++ (Str.as_bytes text ++ [0x0A]) := by
  refine ⟨rfl, ?_, ?_⟩
  · show Except.ok ((L ++ [Str.as_bytes text]) ++ [[0x0A]]) =
      Except.ok (L ++ [Str.as_bytes text, [0x0A]])
    rw [List.append_assoc]
    rfl
  · simp

/-- C6: `set_size width height` (both `u8`) performs exactly the single write
`1D 21 p` with `p = (min width 7 <<< 4) ||| min height 7`: each multiplier is
silently clamped to 0–7 and the operation is the plain transport write of
those three bytes, so clamping itself never produces a failure. -/
theorem c6_set_size {σ ε : Type} (t : Transport σ ε) (s : σ) (w h : Nat)
    (hw : w < 256) (hh : h < 256) :
    Printer.set_size t s w h =
      t.write s [0x1D, 0x21, (min w 7 <<< 4) ||| min h 7] :=
  rfl

/-- Witness for C6 at the spec's example: `set_size 9 2` sends `1D 21 72`. -/
theorem c6_set_size_witness :
    Printer.set_size logTransport [] 9 2 = Except.ok [[0x1D, 0x21, 0x72]] := by
  have h := c6_set_size logTransport [] 9 2 (by decide) (by decide)
  rw [h]
  decide

/-- C7: each command-option enum maps to its protocol byte by a total function
exactly as the spec's table states, and each corresponding operation is the
single transport write of its fixed byte sequence, appended exactly once after
any prior log `L` — independent of all prior calls. -/
theorem c7_enum_tables {σ ε : Type} (t : Transport σ ε) (s : σ)
    (L : List (List Nat)) (cm : CutMode) (um : UnderlineMode) (al : Align)
    (fo : Font) (j : Justification) (d : Density) (ps : PrintSpeed) :
    CutMode.as_byte CutMode.Full = 0x00
    ∧ CutMode.as_byte CutMode.Partial = 0x01
    ∧ UnderlineMode.as_byte UnderlineMode.None = 0x00
    ∧ UnderlineMode.as_byte UnderlineMode.Single = 0x01
    ∧ UnderlineMode.as_byte UnderlineMode.Double = 0x02
    ∧ Align.as_byte Align.Left = 0x00
    ∧ Align.as_byte Align.Center = 0x01
    ∧ Align.as_byte Align.Right = 0x02
    ∧ Font.as_byte Font.FontA = 0x00
    ∧ Font.as_byte Font.FontB = 0x01
    ∧ Justification.as_byte Justification.Left = 0x00
    ∧ Justification.as_byte Justification.Center = 0x01
    ∧ Justification.as_byte Justification.Right = 0x02
    ∧ Density.as_byte Density.Level0 = 0x00
    ∧ Density.as_byte Density.Level1 = 0x01
    ∧ Density.as_byte Density.Level2 = 0x02
    ∧ Density.as_byte Density.Level3 = 0x03
    ∧ Density.as_byte Density.Level4 = 0x04
    ∧ Density.as_byte Density.Level5 = 0x05
    ∧ Density.as_byte Density.Level6 = 0x06
    ∧ Density.as_byte Density.Level7 = 0x07
    ∧ Density.as_byte Density.Level8 = 0x08
    ∧ PrintSpeed.as_byte PrintSpeed.Speed1 = 0x00
    ∧ PrintSpeed.as_byte PrintSpeed.Speed2 = 0x01
    ∧ PrintSpeed.as_byte PrintSpeed.Speed3 = 0x02
    ∧ PrintSpeed.as_byte PrintSpeed.Speed4 = 0x03
    ∧ Printer.cut t s cm = t.write s [0x1D, 0x56, cm.as_byte]
    ∧ Printer.set_underline t s um = t.write s [0x1B, 0x2D, um.as_byte]
    ∧ Printer.set_align t s al = t.write s [0x1B, 0x61, al.as_byte]
    ∧ Printer.set_font t s fo = t.write s [0x1B, 0x4D, fo.as_byte]
    ∧ Printer.set_justification t s j = t.write s [0x1B, 0x61, j.as_byte]
    ∧ Printer.set_density t s d = t.write s [0x1D, 0x7C, d.as_byte]
    ∧ Printer.set_print_speed t s ps = t.write s [0x1F, 0x50, ps.as_byte]
    ∧ Printer.cut logTransport L cm = Except.ok (L ++ [[0x1D, 0x56, cm.as_byte]])
    ∧ Printer.set_underline logTransport L um =
        Except.ok (L ++ [[0x1B, 0x2D, um.as_byte]])
    ∧ Printer.set_align logTransport L al =
        Except.ok (L ++ [[0x1B, 0x61, al.as_byte]])
    ∧ Printer.set_font logTransport L fo =
        Except.ok (L ++ [[0x1B, 0x4D, fo.as_byte]])
    ∧ Printer.set_justification logTransport L j =
        Except.ok (L ++ [[0x1B, 0x61, j.as_byte]])
    ∧ Printer.set_density logTransport L d =
        Except.ok (L ++ [[0x1D, 0x7C, d.as_byte]])
    ∧ Printer.set_print_speed logTransport L ps =
        Except.ok (L ++ [[0x1F, 0x50, ps.as_byte]]) :=
  ⟨rfl, rfl, rfl, rfl, rfl, rfl, rfl, rfl, rfl, rfl, rfl, rfl, rfl, rfl, rfl,
    rfl, rfl, rfl, rfl, rfl, rfl, rfl, rfl, rfl, rfl, rfl, rfl, rfl, rfl, rfl,
    rfl, rfl, rfl, rfl, rfl, rfl, rfl, rfl, rfl, rfl⟩

/-- C8: `write` hands the transport exactly the UTF-8 bytes of the text and
`raw` exactly the given bytes, unmodified and uninterpreted; on the logging
transport each delivers its byte slice verbatim. -/
theorem c8_verbatim {σ ε : Type} (t : Transport σ ε) (s : σ) (text : Str)
    (data : List Nat) (L : List (List Nat)) :
    Printer.write t s text = t.write s (Str.as_bytes text)
    ∧ Printer.raw t s data = t.write s data
    ∧ Printer.write logTransport L text = Except.ok (L ++ [Str.as_bytes text])
    ∧ Printer.raw logTransport L data = Except.ok (L ++ [data]) :=
  ⟨rfl, rfl, rfl, rfl⟩

/-- Spec-side definition of the shared alignment wire command of section 6 of
the spec: `ESC 'a' <mode-byte>` = `1B 61 <mode>`. -/
def alignWireSpec (mode : Nat) : List Nat :=
  [0x1B, 0x61, mode]

/-- C10: for each corresponding variant pair, `set_align` and
`set_justification` are the very same transport write of the spec's wire
command `1B 61 <mode-byte>` — the same wire command under two names. -/
theorem c10_align_justification {σ ε : Type} (t : Transport σ ε) (s : σ) :
    (Printer.set_align t s Align.Left = t.write s (alignWireSpec 0x00)
      ∧ Printer.set_justification t s Justification.Left =
          t.write s (alignWireSpec 0x00)
      ∧ Printer.set_align t s Align.Left =
          Printer.set_justification t s Justification.Left)
    ∧ (Printer.set_align t s Align.Center = t.write s (alignWireSpec 0x01)
      ∧ Printer.set_justification t s Justification.Center =
          t.write s (alignWireSpec 0x01)
      ∧ Printer.set_align t s Align.Center =
          Printer.set_justification t s Justification.Center)
    ∧ (Printer.set_align t s Align.Right = t.write s (alignWireSpec 0x02)
      ∧ Printer.set_justification t s Justification.Right =
          t.write s (alignWireSpec 0x02)
      ∧ Printer.set_align t s Align.Right =
          Printer.set_justification t s Justification.Right) :=
  ⟨⟨rfl, rfl, rfl⟩, ⟨rfl, rfl, rfl⟩, ⟨rfl, rfl, rfl⟩⟩

end Escpos

namespace Escpos

/-- Bind on an error short-circuits. -/
theorem error_bind {α β γ : Type} (e : α) (f : β → Except α γ) :
    (Except.error e : Except α β).bind f = Except.error e :=
  rfl

/-- Bind on a success applies the continuation. -/
theorem ok_bind {α β γ : Type} (b : β) (f : β → Except α γ) :
    (Except.ok b : Except α β).bind f = f b :=
  rfl

/-- C9: every façade operation is `raw` of its encoded bytes; `raw` succeeds
exactly when the transport write does and on failure returns the transport's
error value itself, unchanged; the multi-write operations fail exactly when one
of their writes fails, with that write's own error; and malformed caller input
is encoded and sent, never rejected: an image whose data length does not match
`height * ceil(width / 8)` and an arbitrary baud value are both delivered as
encoded. -/
theorem c9_errors {σ ε : Type} (t : Transport σ ε) (s s2 : σ) (e : ε)
    (n : Nat) (cm : CutMode) (b iv bm : Bool) (um : UnderlineMode) (al : Align)
    (fo : Font) (w h : Nat) (j : Justification) (d : Density) (ps : PrintSpeed)
    (baud ms : Nat) (data : List Nat) (text : Str) (img : Image) :
    Printer.raw t s data = t.write s data
    ∧ Printer.feed t s n = Printer.raw t s [0x1B, 0x64, n]
    ∧ Printer.cut t s cm = Printer.raw t s [0x1D, 0x56, cm.as_byte]
    ∧ Printer.set_bold t s b = Printer.raw t s [0x1B, 0x45, if b then 0x01 else 0x00]
    ∧ Printer.set_underline t s um = Printer.raw t s [0x1B, 0x2D, um.as_byte]
    ∧ Printer.set_align t s al = Printer.raw t s [0x1B, 0x61, al.as_byte]
    ∧ Printer.set_font t s fo = Printer.raw t s [0x1B, 0x4D, fo.as_byte]
    ∧ Printer.set_size t s w h =
        Printer.raw t s [0x1D, 0x21, (min w 7 <<< 4) ||| min h 7]
    ∧ Printer.set_invert t s iv = Printer.raw t s [0x1D, 0x42, if iv then 0x01 else 0x00]
    ∧ Printer.set_justification t s j = Printer.raw t s [0x1B, 0x61, j.as_byte]
    ∧ Printer.set_density t s d = Printer.raw t s [0x1D, 0x7C, d.as_byte]
    ∧ Printer.set_print_speed t s ps = Printer.raw t s [0x1F, 0x50, ps.as_byte]
    ∧ Printer.set_baud_rate t s baud = Printer.raw t s [0x1B, 0x23, 0x23, 0x53,
        0x42, 0x44, 0x52, baud % 256, baud / 256 % 256, baud / 256 / 256 % 256,
        baud / 256 / 256 / 256 % 256]
    ∧ Printer.set_max_speed t s ms = Printer.raw t s [0x1B, 0x23, 0x23, 0x53,
        0x54, 0x53, 0x50, ms]
    ∧ Printer.set_black_mark t s bm = Printer.raw t s [0x1F, 0x1B, 0x1F, 0x80,
        0x04, 0x05, 0x06, if bm then 0x44 else 0x66]
    ∧ (Printer.raw t s data = Except.error e ↔ t.write s data = Except.error e)
    ∧ (Printer.print_image t s img = Except.ok s2 ↔
        ∃ s1, t.write s (imageHeaderBytes img) = Except.ok s1
          ∧ t.write s1 img.data = Except.ok s2)
    ∧ (Printer.print_image t s img = Except.error e ↔
        t.write s (imageHeaderBytes img) = Except.error e
        ∨ ∃ s1, t.write s (imageHeaderBytes img) = Except.ok s1
            ∧ t.write s1 img.data = Except.error e)
    ∧ (Printer.write_line t s text = Except.error e ↔
        t.write s (Str.as_bytes text) = Except.error e
        ∨ ∃ s1, t.write s (Str.as_bytes text) = Except.ok s1
            ∧ t.write s1 [0x0A] = Except.error e)
    ∧ Printer.print_image logTransport [] ⟨16, 2, [0xFF]⟩ =
        Except.ok [[0x1D, 0x76, 0x30, 0x00, 0x02, 0x00, 0x02, 0x00], [0xFF]]
    ∧ Printer.set_baud_rate logTransport [] 999999999 =
        Except.ok [[0x1B, 0x23, 0x23, 0x53, 0x42, 0x44, 0x52, 0xFF, 0xC9, 0x9A, 0x3B]] := by
  refine ⟨rfl, rfl, rfl, rfl, rfl, rfl, rfl, rfl, rfl, rfl, rfl, rfl, rfl, rfl,
    rfl, Iff.rfl, ?_, ?_, ?_, by decide, by decide⟩
  · rw [print_image_eq]
    cases hw : t.write s (imageHeaderBytes img) with
    | error e0 => simp [error_bind]
    | ok s1 => simp [ok_bind]
  · rw [print_image_eq]
    cases hw : t.write s (imageHeaderBytes img) with
    | error e0 => simp [error_bind]
    | ok s1 => simp [ok_bind]
  · unfold Printer.write_line Printer.write
    cases hw : t.write s (Str.as_bytes text) with
    | error e0 => simp [error_bind]
    | ok s1 => simp [ok_bind]

end Escpos
